import Mathlib

/-!
Shallow embedding of the modeling core of the capital_one_bowl_mania
repository: `bowl_mania/models/linear_regression.py`,
`bowl_mania/models/bayesian_regression.py` and
`bowl_mania/utils/metrics.py`, together with the fragments of the numeric
libraries (sklearn's StandardScaler and LinearRegression input checks,
scipy's standard-normal CDF) that the repository's control flow depends
on.  Model-side numeric values are modelled as real numbers; the
standalone metric utilities are modelled over `ℚ` so that they are fully
decidable (every Python float is an exact rational).
-/

namespace BowlMania

/-- A pandas DataFrame restricted to what the models use: ordered column
names plus rows of numeric values (row-major). -/
structure Frame where
  cols : List String
  rows : List (List ℝ)

/-- Dot product of two equally long coefficient/value lists. -/
def dot (a b : List ℝ) : ℝ := (List.zipWith (fun x y => x * y) a b).sum

/-- numpy mean of a list of values. -/
noncomputable def npMean (l : List ℝ) : ℝ := l.sum / l.length

/-- numpy population variance (`ddof = 0`). -/
noncomputable def npVar (l : List ℝ) : ℝ :=
  npMean (l.map (fun x => (x - npMean l) ^ 2))

/-- numpy standard deviation: square root of the population variance. -/
noncomputable def npStd (l : List ℝ) : ℝ := Real.sqrt (npVar l)

/-- The `j`-th column of a frame. -/
def Frame.col (X : Frame) (j : ℕ) : List ℝ := X.rows.map (fun r => r.getD j 0)

/-- sklearn `StandardScaler` fitted state: feature names seen at fit
time, per-feature mean and per-feature scale. -/
structure Scaler where
  feature_names_in : List String
  mean : List ℝ
  scale : List ℝ

/-- sklearn `StandardScaler.fit` on a named frame: captures the column
names, the per-feature mean and the per-feature scale, where the scale is
the population standard deviation with sklearn's
`_handle_zeros_in_scale` guard (a zero scale is replaced by 1). -/
noncomputable def scalerFit (X : Frame) : Scaler where
  feature_names_in := X.cols
  mean := (List.range X.cols.length).map (fun j => npMean (X.col j))
  scale := (List.range X.cols.length).map (fun j =>
    let sd := npStd (X.col j)
    if sd = 0 then 1 else sd)

/-- Standardize one row against stored means/scales:
`(x - mean) / scale` positionally. -/
noncomputable def scaleRow (m sc r : List ℝ) : List ℝ :=
  (r.zip (m.zip sc)).map (fun p => (p.1 - p.2.1) / p.2.2)

/-- sklearn `StandardScaler.transform` on a named frame: the scaler was
fitted on a named frame, so sklearn validates that the incoming feature
names equal `feature_names_in_` and raises a `ValueError` otherwise. -/
noncomputable def Scaler.transform (s : Scaler) (X : Frame) :
    Except String (List (List ℝ)) :=
  if X.cols = s.feature_names_in then
    Except.ok (X.rows.map (scaleRow s.mean s.scale))
  else
    Except.error ("The feature names should match those that were passed during fit")

/-- sklearn `LinearRegression` fitted state.  In this repository the
sklearn estimator is always fitted on a bare ndarray (the scaled matrix
when normalizing, `X.values` otherwise), so it records no feature names
and its predict validates only the feature count. -/
structure SKLinReg where
  coef : List ℝ
  intercept : ℝ
  n_features_in : ℕ

/-- sklearn `LinearRegression.predict` on an ndarray: validates the
feature count, then applies `intercept + row · coef` to each row. -/
def SKLinReg.predictArr (m : SKLinReg) (rows : List (List ℝ)) :
    Except String (List ℝ) :=
  if rows.all (fun r => r.length = m.n_features_in) then
    Except.ok (rows.map (fun r => m.intercept + dot m.coef r))
  else
    Except.error ("X has a wrong number of features")

/-- State of `bowl_mania.models.linear_regression.LinearRegression`
(linear_regression.py, lines 16-30): the wrapped sklearn estimator, the
optional scaler (present exactly when `normalize` is set), the
`normalize` flag, the feature names captured at fit time and the fitted
flag. -/
structure LinearRegression where
  model : SKLinReg
  scaler : Option Scaler
  normalize : Bool
  feature_names : List String
  is_fitted : Bool

/-- scipy `norm.cdf`: the standard normal cumulative distribution
function, modelled as the measure of `(-∞, z]` under the Gaussian
distribution of mean 0 and variance 1. -/
noncomputable def normCdf (z : ℝ) : ℝ :=
  (ProbabilityTheory.gaussianReal 0 1 (Set.Iic z)).toReal

/-- `LinearRegression.predict` (linear_regression.py, lines 54-72):
raises unless fitted, standardizes through the stored scaler when
`normalize` is set (otherwise takes `X.values`), then calls the sklearn
estimator's predict.  The `none` scaler branch is unreachable for states
built by the constructor, which pairs `normalize=True` with a scaler. -/
noncomputable def LinearRegression.predict (m : LinearRegression) (X : Frame) :
    Except String (List ℝ) :=
  if m.is_fitted = false then
    Except.error ("Model must be fitted before prediction")
  else do
    let scaled ← (if m.normalize then
        match m.scaler with
        | some s => s.transform X
        | none => Except.error ("AttributeError: NoneType has no transform")
      else Except.ok X.rows)
    m.model.predictArr scaled

/-- `LinearRegression.predict_cover_probability` (linear_regression.py,
lines 74-98): z-scores the predictions against the actual spread, using
the default standard deviation 10.0 when none is supplied, and applies
the standard-normal CDF elementwise. -/
noncomputable def LinearRegression.predict_cover_probability
    (m : LinearRegression) (X : Frame) (actual_spread : ℝ)
    (spread_std : Option ℝ) : Except String (List ℝ) := do
  let predicted_spread ← m.predict X
  let sd := spread_std.getD 10
  Except.ok (predicted_spread.map (fun p => normCdf ((p - actual_spread) / sd)))

/-- The dictionary returned by `cross_validate`. -/
structure CVMetrics where
  mean_mse : ℝ
  std_mse : ℝ
  rmse : ℝ

/-- `LinearRegression.cross_validate` (linear_regression.py, lines
100-125).  When `normalize` is set it calls
`self.scaler.fit_transform(X)`, re-fitting the *stored* scaler on this
`X`; the second component of the result is the updated model state.
sklearn's `cross_val_score` clones the estimator and returns one negated
mean-squared error per fold; being external k-fold machinery whose
internals this repository does not touch, it is passed in as the
function argument `cross_val_score`.  The returned dictionary is
`mean_mse = -scores.mean()`, `std_mse = scores.std()`,
`rmse = sqrt(-scores.mean())`. -/
noncomputable def LinearRegression.cross_validate
    (cross_val_score : List (List ℝ) → List ℝ → ℕ → List ℝ)
    (m : LinearRegression) (X : Frame) (y : List ℝ) (cv : ℕ) :
    CVMetrics × LinearRegression :=
  let fitted := scalerFit X
  let X_scaled :=
    if m.normalize then X.rows.map (scaleRow fitted.mean fitted.scale) else X.rows
  let m2 := if m.normalize then { m with scaler := some fitted } else m
  let scores := cross_val_score X_scaled y cv
  ({ mean_mse := -(npMean scores)
     std_mse := npStd scores
     rmse := Real.sqrt (-(npMean scores)) }, m2)

/-- `LinearRegression.get_feature_importance` (linear_regression.py,
lines 127-143): raises unless fitted, then builds one
(feature, coefficient, |coefficient|) row per feature and sorts by
descending absolute coefficient. -/
noncomputable def LinearRegression.get_feature_importance
    (m : LinearRegression) : Except String (List (String × ℝ × ℝ)) :=
  if m.is_fitted = false then
    Except.error ("Model must be fitted first")
  else
    let rows := (m.feature_names.zip m.model.coef).map (fun nc => (nc.1, nc.2, |nc.2|))
    Except.ok (List.insertionSort (fun a b => b.2.2 ≤ a.2.2) rows)

/-- `LinearRegression.evaluate` (linear_regression.py, lines 145-173):
predicts (raising unless fitted), then returns MSE, RMSE, MAE, the
coefficient of determination of the sklearn estimator on the scaled
features, and the residual standard deviation. -/
noncomputable def LinearRegression.evaluate (m : LinearRegression) (X : Frame)
    (y : List ℝ) : Except String (List (String × ℝ)) := do
  let predictions ← m.predict X
  let residuals := List.zipWith (fun a b => a - b) y predictions
  let mse := npMean (residuals.map (fun r => r ^ 2))
  let scaled ← (if m.normalize then
      match m.scaler with
      | some s => s.transform X
      | none => Except.error ("AttributeError: NoneType has no transform")
    else Except.ok X.rows)
  let fitted_vals ← m.model.predictArr scaled
  let r2 := 1 - (List.zipWith (fun a b => (a - b) ^ 2) y fitted_vals).sum /
      ((y.map (fun v => (v - npMean y) ^ 2)).sum)
  Except.ok [("mse", mse), ("rmse", Real.sqrt mse),
    ("mae", npMean (residuals.map (fun r => |r|))), ("r2", r2),
    ("residual_std", npStd residuals)]

/-- One retained posterior draw of the flat Bayesian model
(bayesian_regression.py, `build_simple_model`, lines 31-58): an
intercept `alpha`, a coefficient vector `beta` and an error scale
`sigma`. -/
structure BayesDraw where
  alpha : ℝ
  beta : List ℝ
  sigma : ℝ

/-- State of `bowl_mania.models.bayesian_regression.BayesianRegression`
after fitting the flat topology (bayesian_regression.py, lines 14-134):
the PyMC model built at fit time closes over the *training* design
matrix `X.values` and the observed `y.values`; the MCMC trace is
`chains` chains of `draws` retained draws, represented here as a
function from chain and draw index to the draw's parameters. -/
structure BayesianRegression where
  hierarchical : Bool
  trainX : List (List ℝ)
  trainY : List ℝ
  feature_names : List String
  chains : ℕ
  draws : ℕ
  trace : ℕ → ℕ → BayesDraw
  is_fitted : Bool

/-- A numpy array of shape (chains, draws, n), as produced by
`posterior_predictive['y_obs'].values`. -/
structure Cube where
  chains : ℕ
  draws : ℕ
  n : ℕ
  val : ℕ → ℕ → ℕ → ℝ

/-- PyMC `sample_posterior_predictive(self.trace, var_names=['y_obs'])`
(bayesian_regression.py, lines 161-164): for each retained draw, samples
the observed node `y_obs` of the fit-time model — a Normal of mean
`alpha + trainX · beta` and scale `sigma` at each *training* row.  The
random number generator is modelled by the `noise` oracle (one
standard-normal draw per chain, draw and observation), so each sample is
`mu + sigma * noise`.  The shape of `y_obs` is fixed by the fit-time
model: (chains, draws, number of training rows). -/
noncomputable def sample_posterior_predictive (noise : ℕ → ℕ → ℕ → ℝ)
    (m : BayesianRegression) : Cube where
  chains := m.chains
  draws := m.draws
  n := m.trainX.length
  val := fun c d i =>
    (m.trace c d).alpha + dot (m.trace c d).beta (m.trainX.getD i []) +
      (m.trace c d).sigma * noise c d i

/-- `array.mean(axis=(0, 1))` on a (chains, draws, n) array: one mean
per trailing index. -/
noncomputable def meanAxes01 (c : Cube) : List ℝ :=
  (List.range c.n).map (fun i =>
    (∑ a ∈ Finset.range c.chains, ∑ d ∈ Finset.range c.draws, c.val a d i) /
      (c.chains * c.draws))

/-- The union-shaped return of `BayesianRegression.predict`: the full
sample cube when `return_samples` is set, otherwise the per-row mean. -/
inductive BayesPrediction where
  | samples : Cube → BayesPrediction
  | means : List ℝ → BayesPrediction

/-- `BayesianRegression.predict` (bayesian_regression.py, lines
136-171): raises unless fitted; the hierarchical branch (lines 153-158)
only factorizes `group` and then `pass`es, so neither `X` nor `group`
ever reaches the sampler — the posterior-predictive samples are those of
the fit-time model over the training rows.  Returns the full cube when
`return_samples` is set, and its mean over the chain and draw axes
otherwise. -/
noncomputable def BayesianRegression.predict (noise : ℕ → ℕ → ℕ → ℝ)
    (m : BayesianRegression) (X : Frame) (group : Option (List String))
    (return_samples : Bool) : Except String BayesPrediction :=
  if m.is_fitted = false then
    Except.error ("Model must be fitted before prediction")
  else
    let pp := sample_posterior_predictive noise m
    if return_samples then Except.ok (BayesPrediction.samples pp)
    else Except.ok (BayesPrediction.means (meanAxes01 pp))

/-- `BayesianRegression.predict_cover_probability`
(bayesian_regression.py, lines 173-192): takes the full
posterior-predictive sample cube and returns, per trailing row, the
fraction `(samples > actual_spread).mean(axis=(0, 1))` of samples
strictly exceeding the actual spread. -/
noncomputable def BayesianRegression.predict_cover_probability
    (noise : ℕ → ℕ → ℕ → ℝ) (m : BayesianRegression) (X : Frame)
    (actual_spread : ℝ) (group : Option (List String)) :
    Except String (List ℝ) := do
  match ← m.predict noise X group true with
  | BayesPrediction.samples pp =>
      Except.ok ((List.range pp.n).map (fun i =>
        (∑ a ∈ Finset.range pp.chains, ∑ d ∈ Finset.range pp.draws,
            if actual_spread < pp.val a d i then (1 : ℝ) else 0) /
          (pp.chains * pp.draws)))
  | BayesPrediction.means _ => Except.error ("expected samples")

/-- arviz `az.summary(self.trace)`, modelled as the per-parameter
posterior mean over all chains and draws (the convergence diagnostics of
the external library are not modelled; only the fitted-state guard of
`get_summary` matters to the contract). -/
noncomputable def azSummary (m : BayesianRegression) : List (String × ℝ) :=
  let total := (m.chains * m.draws : ℝ)
  [("alpha", (∑ c ∈ Finset.range m.chains, ∑ d ∈ Finset.range m.draws,
      (m.trace c d).alpha) / total),
   ("sigma", (∑ c ∈ Finset.range m.chains, ∑ d ∈ Finset.range m.draws,
      (m.trace c d).sigma) / total)]

/-- `BayesianRegression.get_summary` (bayesian_regression.py, lines
194-205): raises unless fitted, then returns the posterior summary of
the trace. -/
noncomputable def BayesianRegression.get_summary (m : BayesianRegression) :
    Except String (List (String × ℝ)) :=
  if m.is_fitted = false then
    Except.error ("Model must be fitted first")
  else Except.ok (azSummary m)

/-- `BayesianRegression.evaluate` (bayesian_regression.py, lines
231-256): predicts the posterior-mean values (raising unless fitted) and
returns MSE, RMSE, MAE and the residual standard deviation against
`y.values`. -/
noncomputable def BayesianRegression.evaluate (noise : ℕ → ℕ → ℕ → ℝ)
    (m : BayesianRegression) (X : Frame) (y : List ℝ)
    (group : Option (List String)) : Except String (List (String × ℝ)) := do
  match ← m.predict noise X group false with
  | BayesPrediction.means predictions =>
      let residuals := List.zipWith (fun a b => a - b) y predictions
      let mse := npMean (residuals.map (fun r => r ^ 2))
      Except.ok [("mse", mse), ("rmse", Real.sqrt mse),
        ("mae", npMean (residuals.map (fun r => |r|))),
        ("residual_std", npStd residuals)]
  | BayesPrediction.samples _ => Except.error ("expected means")

/-! ### Metric utilities (`bowl_mania/utils/metrics.py`)

These are standalone arithmetic over plain arrays; they are modelled
over `ℚ` so that every operation is decidable. -/

/-- One row of the DataFrame built by `evaluate_predictions`; the last
four columns exist exactly when `actual_spreads` was supplied. -/
structure EvalRow where
  actual : ℚ
  predicted : ℚ
  residual : ℚ
  abs_residual : ℚ
  spread : Option ℚ
  actual_covers : Option ℤ
  predicted_covers : Option ℤ
  correct_cover : Option ℤ
  deriving Repr, DecidableEq

/-- `evaluate_predictions` (metrics.py, lines 54-80): one row per
observation with `residual = y_true - y_pred` and its absolute value;
when `actual_spreads` is supplied, also the 0/1 columns
`actual_covers = (y_true > spread)`, `predicted_covers = (y_pred >
spread)` and `correct_cover = (actual_covers == predicted_covers)`. -/
def evaluate_predictions (y_true y_pred : List ℚ)
    (actual_spreads : Option (List ℚ)) : List EvalRow :=
  match actual_spreads with
  | none =>
      (y_true.zip y_pred).map (fun p =>
        { actual := p.1, predicted := p.2, residual := p.1 - p.2,
          abs_residual := |p.1 - p.2|, spread := none, actual_covers := none,
          predicted_covers := none, correct_cover := none })
  | some spreads =>
      ((y_true.zip y_pred).zip spreads).map (fun q =>
        let t := q.1.1
        let p := q.1.2
        let s := q.2
        let ac : ℤ := if s < t then 1 else 0
        let pc : ℤ := if s < p then 1 else 0
        { actual := t, predicted := p, residual := t - p,
          abs_residual := |t - p|, spread := some s, actual_covers := some ac,
          predicted_covers := some pc,
          correct_cover := some (if ac = pc then 1 else 0) })

/-- `calculate_profit` (metrics.py, lines 83-127): places a bet on every
row whose cover probability is at least the threshold; with no
qualifying bet it returns the four-key all-zero dictionary; otherwise
wins are the placed bets whose actual cover is 1, losses the remaining
placed bets, `total_profit = wins*bet_size - losses*bet_size*1.1`, and
`roi = total_profit / (n_bets*bet_size) * 100`. -/
def calculate_profit (cover_probabilities actual_covers : List ℚ)
    (bet_threshold bet_size : ℚ) : List (String × ℚ) :=
  let bets_placed := cover_probabilities.map (fun p => decide (bet_threshold ≤ p))
  let n_bets := (bets_placed.filter (fun b => b)).length
  if n_bets = 0 then
    [("total_profit", 0), ("roi", 0), ("win_rate", 0), ("n_bets", 0)]
  else
    let wins := ((bets_placed.zip actual_covers).filter
      (fun bc => bc.1 && decide (bc.2 = 1))).length
    let losses := n_bets - wins
    let total_profit := wins * bet_size - losses * bet_size * (11 / 10)
    let total_wagered := n_bets * bet_size
    let roi := if 0 < total_wagered then total_profit / total_wagered * 100 else 0
    [("total_profit", total_profit), ("roi", roi),
     ("win_rate", if 0 < n_bets then (wins : ℚ) / n_bets else 0),
     ("n_bets", n_bets), ("wins", wins), ("losses", losses)]

/-! ### Concrete states used by witnesses and counterexamples -/

/-- An unfit point-estimate model, as produced by the constructor. -/
def unfitPoint : LinearRegression where
  model := { coef := [], intercept := 0, n_features_in := 0 }
  scaler := none
  normalize := true
  feature_names := []
  is_fitted := false

/-- An unfit Bayesian model, as produced by the constructor. -/
def unfitBayes : BayesianRegression where
  hierarchical := false
  trainX := []
  trainY := []
  feature_names := []
  chains := 0
  draws := 0
  trace := fun _ _ => { alpha := 0, beta := [], sigma := 1 }
  is_fitted := false

/-- A fitted single-feature point model without normalization. -/
def pointPlain : LinearRegression where
  model := { coef := [1], intercept := 0, n_features_in := 1 }
  scaler := none
  normalize := false
  feature_names := ["f"]
  is_fitted := true

/-- A one-row frame over the single feature `f`. -/
def frameF2 : Frame := { cols := ["f"], rows := [[2]] }

/-! ### Theorems -/

/-- C2: on any model instance of either type on which fit has not been
called, `predict`, `evaluate`, `get_feature_importance` (point model)
and `get_summary` (Bayesian model) all surface an error to the caller
rather than returning output. -/
theorem c2_not_fitted_errors (pm : LinearRegression) (bm : BayesianRegression)
    (X : Frame) (y : List ℝ) (g : Option (List String))
    (noise : ℕ → ℕ → ℕ → ℝ) (rs : Bool)
    (hp : pm.is_fitted = false) (hb : bm.is_fitted = false) :
    pm.predict X = Except.error ("Model must be fitted before prediction") ∧
    pm.evaluate X y = Except.error ("Model must be fitted before prediction") ∧
    pm.get_feature_importance = Except.error ("Model must be fitted first") ∧
    bm.predict noise X g rs =
      Except.error ("Model must be fitted before prediction") ∧
    bm.evaluate noise X y g =
      Except.error ("Model must be fitted before prediction") ∧
    bm.get_summary = Except.error ("Model must be fitted first") := by
  refine ⟨?_, ?_, ?_, ?_, ?_, ?_⟩ <;>
    simp [LinearRegression.predict, LinearRegression.evaluate,
      LinearRegression.get_feature_importance, BayesianRegression.predict,
      BayesianRegression.evaluate, BayesianRegression.get_summary, hp, hb,
      Bind.bind, Except.bind]

/-- Witness for C2 at the constructor-fresh unfit states. -/
theorem c2_witness :
    unfitPoint.is_fitted = false ∧ unfitBayes.is_fitted = false ∧
    (unfitPoint.predict frameF2 =
        Except.error ("Model must be fitted before prediction") ∧
      unfitPoint.evaluate frameF2 [] =
        Except.error ("Model must be fitted before prediction") ∧
      unfitPoint.get_feature_importance =
        Except.error ("Model must be fitted first") ∧
      unfitBayes.predict (fun _ _ _ => 0) frameF2 none false =
        Except.error ("Model must be fitted before prediction") ∧
      unfitBayes.evaluate (fun _ _ _ => 0) frameF2 [] none =
        Except.error ("Model must be fitted before prediction") ∧
      unfitBayes.get_summary = Except.error ("Model must be fitted first")) :=
  ⟨rfl, rfl,
    c2_not_fitted_errors unfitPoint unfitBayes frameF2 [] none
      (fun _ _ _ => 0) false rfl rfl⟩

/-- C3: for a fitted point model, `predict_cover_probability` is, per
row, the standard-normal CDF of `(predict(X) - actual_spread) /
spread_std`, with `spread_std` defaulting to 10.0 when not supplied. -/
theorem c3_cover_probability_formula (m : LinearRegression) (X : Frame)
    (s : ℝ) (sd : Option ℝ) (ps : List ℝ)
    (h : m.predict X = Except.ok ps) :
    m.predict_cover_probability X s sd =
      Except.ok (ps.map (fun p => normCdf ((p - s) / sd.getD 10))) := by
  simp [LinearRegression.predict_cover_probability, h, Bind.bind, Except.bind]

/-- Witness for C3: a fitted one-feature model, no explicit
`spread_std`, so the default 10.0 applies. -/
theorem c3_witness :
    pointPlain.predict frameF2 = Except.ok [2] ∧
    pointPlain.predict_cover_probability frameF2 1 none =
      Except.ok ([2].map (fun p => normCdf ((p - 1) / Option.getD none 10))) := by
  have h : pointPlain.predict frameF2 = Except.ok [2] := by
    simp [LinearRegression.predict, SKLinReg.predictArr, pointPlain, frameF2,
      dot, Bind.bind, Except.bind]
  exact ⟨h, c3_cover_probability_formula pointPlain frameF2 1 none [2] h⟩

/-- C6: the dictionary returned by `cross_validate` always satisfies
`std_mse ≥ 0` and `rmse = sqrt(mean_mse)`, whatever the fold scores. -/
theorem c6_cross_validate_metrics
    (cvs : List (List ℝ) → List ℝ → ℕ → List ℝ)
    (m : LinearRegression) (X : Frame) (y : List ℝ) (cv : ℕ) :
    0 ≤ ((m.cross_validate cvs X y cv).1).std_mse ∧
    ((m.cross_validate cvs X y cv).1).rmse =
      Real.sqrt (((m.cross_validate cvs X y cv).1).mean_mse) := by
  constructor
  · exact Real.sqrt_nonneg _
  · rfl

/-- The number of placed bets computed inside `calculate_profit` is the
count of probabilities reaching the threshold. -/
theorem nBets_eq_countP (probs : List ℚ) (thr : ℚ) :
    ((probs.map (fun p => decide (thr ≤ p))).filter (fun b => b)).length =
      probs.countP (fun p => decide (thr ≤ p)) := by
  rw [List.filter_map, List.length_map, List.countP_eq_length_filter]
  rfl

/-- The number of winning bets computed inside `calculate_profit` is the
count of rows reaching the threshold whose actual cover equals 1. -/
theorem wins_eq_countP (probs covers : List ℚ) (thr : ℚ) :
    (((probs.map (fun p => decide (thr ≤ p))).zip covers).filter
        (fun bc => bc.1 && decide (bc.2 = 1))).length =
      (probs.zip covers).countP
        (fun pc => decide (thr ≤ pc.1) && decide (pc.2 = 1)) := by
  rw [List.zip_map_left, List.filter_map, List.length_map,
    List.countP_eq_length_filter]
  rfl

/-- C4: `calculate_profit` places a bet exactly on the rows whose
probability reaches the threshold; with no qualifying row it returns the
all-zero dictionary; otherwise, with `wins` the placed bets whose actual
cover is 1 and `losses` the remaining placed bets,
`total_profit = wins*bet_size - losses*bet_size*1.1` and
`roi = total_profit / (n_bets*bet_size) * 100`. -/
theorem c4_calculate_profit (probs covers : List ℚ) (thr size : ℚ)
    (hlen : probs.length = covers.length) (hsize : 0 < size) :
    ((probs.countP (fun p => decide (thr ≤ p)) = 0 →
      calculate_profit probs covers thr size =
        [("total_profit", 0), ("roi", 0), ("win_rate", 0), ("n_bets", 0)])) ∧
    (∀ n w : ℕ,
      n = probs.countP (fun p => decide (thr ≤ p)) → n ≠ 0 →
      w = (probs.zip covers).countP
            (fun pc => decide (thr ≤ pc.1) && decide (pc.2 = 1)) →
      (calculate_profit probs covers thr size).lookup ("total_profit") =
        some (w * size - ((n - w : ℕ) : ℚ) * size * (11 / 10)) ∧
      (calculate_profit probs covers thr size).lookup ("roi") =
        some ((w * size - ((n - w : ℕ) : ℚ) * size * (11 / 10)) /
          (n * size) * 100)) := by
  constructor
  · intro h0
    rw [calculate_profit, if_pos]
    rw [nBets_eq_countP]
    exact h0
  · intro n w hn hn0 hw
    have hnb := nBets_eq_countP probs thr
    have hwb := wins_eq_countP probs covers thr
    rw [calculate_profit, if_neg (by rw [hnb, ← hn]; exact hn0)]
    rw [hnb, ← hn, hwb, ← hw]
    have hwag : (0 : ℚ) < (n : ℚ) * size := by
      have : (0 : ℚ) < (n : ℚ) :=
        Nat.cast_pos.mpr (Nat.pos_of_ne_zero hn0)
      positivity
    constructor <;> simp [List.lookup, hwag]

/-- Witness for C4: two rows, one qualifying winning bet at the default
threshold 0.55 and bet size 100. -/
theorem c4_witness :
    ([(3 : ℚ)/5, 2/5].length = [(1 : ℚ), 0].length ∧ (0 : ℚ) < 100 ∧
      (1 : ℕ) = [(3 : ℚ)/5, 2/5].countP (fun p => decide ((11 : ℚ)/20 ≤ p)) ∧
      (1 : ℕ) = ([(3 : ℚ)/5, 2/5].zip [(1 : ℚ), 0]).countP
        (fun pc => decide ((11 : ℚ)/20 ≤ pc.1) && decide (pc.2 = 1))) ∧
    ((calculate_profit [(3 : ℚ)/5, 2/5] [(1 : ℚ), 0] (11/20) 100).lookup
        ("total_profit") =
      some (((1 : ℕ) : ℚ) * 100 - (((1 : ℕ) - (1 : ℕ) : ℕ) : ℚ) * 100 * (11 / 10)) ∧
     (calculate_profit [(3 : ℚ)/5, 2/5] [(1 : ℚ), 0] (11/20) 100).lookup
        ("roi") =
      some ((((1 : ℕ) : ℚ) * 100 - (((1 : ℕ) - (1 : ℕ) : ℕ) : ℚ) * 100 * (11 / 10)) /
        (((1 : ℕ) : ℚ) * 100) * 100)) :=
  ⟨⟨by decide, by norm_num,
      by norm_num [List.countP_cons, List.countP_nil],
      by norm_num [List.countP_cons, List.countP_nil]⟩,
    (c4_calculate_profit [(3 : ℚ)/5, 2/5] [(1 : ℚ), 0] (11/20) 100
      (by decide) (by norm_num)).2 1 1
      (by norm_num [List.countP_cons, List.countP_nil]) (by decide)
      (by norm_num [List.countP_cons, List.countP_nil])⟩

/-- C9: `evaluate_predictions` returns one row per observation carrying
the actual value, the prediction, `residual = y_true - y_pred` and its
absolute value; when spreads are supplied it additionally carries the
0/1 columns `actual_covers = (y_true > spread)`,
`predicted_covers = (y_pred > spread)` and the agreement marker. -/
theorem c9_evaluate_predictions (t p : List ℚ) (hl : t.length = p.length) :
    ((evaluate_predictions t p none).map (fun r => r.actual) = t ∧
     (evaluate_predictions t p none).map (fun r => r.predicted) = p ∧
     ∀ r ∈ evaluate_predictions t p none,
       r.residual = r.actual - r.predicted ∧
       r.abs_residual = |r.actual - r.predicted|) ∧
    (∀ s : List ℚ, s.length = t.length →
      ∀ r ∈ evaluate_predictions t p (some s),
        r.residual = r.actual - r.predicted ∧
        r.abs_residual = |r.actual - r.predicted| ∧
        (r.spread).isSome = true ∧
        r.actual_covers = some (if (r.spread).getD 0 < r.actual then 1 else 0) ∧
        r.predicted_covers =
          some (if (r.spread).getD 0 < r.predicted then 1 else 0) ∧
        r.correct_cover =
          some (if r.actual_covers = r.predicted_covers then 1 else 0)) := by
  refine ⟨⟨?_, ?_, ?_⟩, ?_⟩
  · rw [evaluate_predictions, List.map_map]
    exact List.map_fst_zip t p (le_of_eq hl)
  · rw [evaluate_predictions, List.map_map]
    exact List.map_snd_zip t p (ge_of_eq hl)
  · intro r hr
    rw [evaluate_predictions] at hr
    obtain ⟨q, _, rfl⟩ := List.mem_map.mp hr
    exact ⟨rfl, rfl⟩
  · intro s _ r hr
    rw [evaluate_predictions] at hr
    obtain ⟨q, _, rfl⟩ := List.mem_map.mp hr
    refine ⟨rfl, rfl, rfl, rfl, rfl, ?_⟩
    simp only [Option.some.injEq]

/-- Witness for C9 at the spec's scenario
`evaluate_predictions([10,15,20], [11,14,21])`. -/
theorem c9_witness :
    ((evaluate_predictions [(10 : ℚ), 15, 20] [(11 : ℚ), 14, 21] none).map
        (fun r => r.residual) = [-1, 1, -1] ∧
     (evaluate_predictions [(10 : ℚ), 15, 20] [(11 : ℚ), 14, 21] none).map
        (fun r => r.abs_residual) = [1, 1, 1]) ∧
    (((evaluate_predictions [(10 : ℚ), 15, 20] [(11 : ℚ), 14, 21] none).map
        (fun r => r.actual) = [(10 : ℚ), 15, 20] ∧
      (evaluate_predictions [(10 : ℚ), 15, 20] [(11 : ℚ), 14, 21] none).map
        (fun r => r.predicted) = [(11 : ℚ), 14, 21] ∧
      ∀ r ∈ evaluate_predictions [(10 : ℚ), 15, 20] [(11 : ℚ), 14, 21] none,
        r.residual = r.actual - r.predicted ∧
        r.abs_residual = |r.actual - r.predicted|) ∧
     (∀ s : List ℚ, s.length = [(10 : ℚ), 15, 20].length →
      ∀ r ∈ evaluate_predictions [(10 : ℚ), 15, 20] [(11 : ℚ), 14, 21] (some s),
        r.residual = r.actual - r.predicted ∧
        r.abs_residual = |r.actual - r.predicted| ∧
        (r.spread).isSome = true ∧
        r.actual_covers = some (if (r.spread).getD 0 < r.actual then 1 else 0) ∧
        r.predicted_covers =
          some (if (r.spread).getD 0 < r.predicted then 1 else 0) ∧
        r.correct_cover =
          some (if r.actual_covers = r.predicted_covers then 1 else 0))) :=
  ⟨⟨by norm_num [evaluate_predictions], by norm_num [evaluate_predictions]⟩,
    c9_evaluate_predictions [(10 : ℚ), 15, 20] [(11 : ℚ), 14, 21] (by decide)⟩

/-- C7: for a fitted point model whose coefficient vector matches the
captured feature names, `get_feature_importance` returns one
(name, coefficient, |coefficient|) row per feature, sorted by
non-increasing absolute coefficient. -/
theorem c7_feature_importance (m : LinearRegression)
    (l : List (String × ℝ × ℝ)) (hf : m.is_fitted = true)
    (hlen : m.feature_names.length = m.model.coef.length)
    (h : m.get_feature_importance = Except.ok l) :
    l.length = m.feature_names.length ∧
    l.Perm ((m.feature_names.zip m.model.coef).map
      (fun nc => (nc.1, nc.2, |nc.2|))) ∧
    l.Sorted (fun a b => b.2.2 ≤ a.2.2) := by
  rw [LinearRegression.get_feature_importance, if_neg (by simp [hf])] at h
  injection h with h
  subst h
  have hperm := List.perm_insertionSort
    (fun a b : String × ℝ × ℝ => b.2.2 ≤ a.2.2)
    ((m.feature_names.zip m.model.coef).map (fun nc => (nc.1, nc.2, |nc.2|)))
  refine ⟨?_, hperm, ?_⟩
  · rw [hperm.length_eq, List.length_map, List.length_zip, hlen, min_self]
  · haveI : IsTotal (String × ℝ × ℝ) (fun a b => b.2.2 ≤ a.2.2) :=
      ⟨fun a b => le_total b.2.2 a.2.2⟩
    haveI : IsTrans (String × ℝ × ℝ) (fun a b => b.2.2 ≤ a.2.2) :=
      ⟨fun _ _ _ hab hbc => le_trans hbc hab⟩
    exact List.sorted_insertionSort _ _

/-- Witness for C7 at a fitted one-feature model. -/
theorem c7_witness :
    (pointPlain.is_fitted = true ∧
     pointPlain.feature_names.length = pointPlain.model.coef.length ∧
     pointPlain.get_feature_importance =
       Except.ok [("f", (1 : ℝ), |(1 : ℝ)|)]) ∧
    ([("f", (1 : ℝ), |(1 : ℝ)|)].length = pointPlain.feature_names.length ∧
     List.Perm [("f", (1 : ℝ), |(1 : ℝ)|)]
       ((pointPlain.feature_names.zip pointPlain.model.coef).map
         (fun nc => (nc.1, nc.2, |nc.2|))) ∧
     List.Sorted (fun a b => b.2.2 ≤ a.2.2) [("f", (1 : ℝ), |(1 : ℝ)|)]) :=
  ⟨⟨rfl, rfl, rfl⟩, c7_feature_importance pointPlain _ rfl rfl rfl⟩

/-- A flat Bayesian model fitted on three training rows, with a single
chain of a single retained draw. -/
def bayes3 : BayesianRegression where
  hierarchical := false
  trainX := [[1], [2], [3]]
  trainY := [1, 2, 3]
  feature_names := ["f"]
  chains := 1
  draws := 1
  trace := fun _ _ => { alpha := 0, beta := [0], sigma := 1 }
  is_fitted := true

/-- A two-row frame over the single feature `f`. -/
def frameTwoRows : Frame := { cols := ["f"], rows := [[5], [6]] }

/-- C1 (divergence exhibit): `BayesianRegression.predict` never uses its
`X` (or `group`) argument — its output is identical for any two feature
matrices — and on a model fitted with three training rows, predicting on
a two-row `X` returns three values, one per *training* row, not one per
row of `X`. -/
theorem c1_bayes_predict_ignores_X :
    (∀ (noise : ℕ → ℕ → ℕ → ℝ) (m : BayesianRegression) (X X2 : Frame)
        (g g2 : Option (List String)) (rs : Bool),
        m.predict noise X g rs = m.predict noise X2 g2 rs) ∧
    (∃ l, BayesianRegression.predict (fun _ _ _ => 0) bayes3 frameTwoRows
          none false = Except.ok (BayesPrediction.means l) ∧
        l.length = 3 ∧ frameTwoRows.rows.length = 2) := by
  constructor
  · intro noise m X X2 g g2 rs
    rfl
  · refine ⟨meanAxes01 (sample_posterior_predictive (fun _ _ _ => 0) bayes3),
      rfl, ?_, rfl⟩
    simp [meanAxes01, sample_posterior_predictive, bayes3]

/-- `scipy.stats.norm.cdf` values are nonnegative. -/
theorem normCdf_nonneg (z : ℝ) : 0 ≤ normCdf z := ENNReal.toReal_nonneg

/-- `scipy.stats.norm.cdf` values are at most one. -/
theorem normCdf_le_one (z : ℝ) : normCdf z ≤ 1 := by
  rw [normCdf]
  have h : ProbabilityTheory.gaussianReal 0 1 (Set.Iic z) ≤ 1 :=
    MeasureTheory.prob_le_one
  have := ENNReal.toReal_mono ENNReal.one_ne_top h
  simpa using this

/-- C8: every entry of `predict_cover_probability` lies in [0, 1] for
both model types, and for the Bayesian model the entry at trailing index
`i` is the fraction of the (chains × draws) posterior-predictive samples
at index `i` strictly exceeding the actual spread. -/
theorem c8_cover_probabilities_in_unit_interval :
    (∀ (m : LinearRegression) (X : Frame) (s : ℝ) (sd : Option ℝ)
        (l : List ℝ), m.predict_cover_probability X s sd = Except.ok l →
        ∀ q ∈ l, 0 ≤ q ∧ q ≤ 1) ∧
    (∀ (noise : ℕ → ℕ → ℕ → ℝ) (m : BayesianRegression) (X : Frame) (s : ℝ)
        (g : Option (List String)) (l : List ℝ),
        m.chains ≠ 0 → m.draws ≠ 0 →
        m.predict_cover_probability noise X s g = Except.ok l →
        (∀ q ∈ l, 0 ≤ q ∧ q ≤ 1) ∧
        l = (List.range m.trainX.length).map (fun i =>
          (((Finset.range m.chains ×ˢ Finset.range m.draws).filter
              (fun cd => s <
                (sample_posterior_predictive noise m).val cd.1 cd.2 i)).card :
            ℝ) / ((m.chains : ℝ) * (m.draws : ℝ)))) := by
  constructor
  · intro m X s sd l h
    rw [LinearRegression.predict_cover_probability] at h
    cases hp : m.predict X with
    | error e => rw [hp] at h; exact absurd h (by simp [Bind.bind, Except.bind])
    | ok ps =>
      rw [hp] at h
      simp only [Bind.bind, Except.bind, Except.ok.injEq] at h
      subst h
      intro q hq
      obtain ⟨p, _, rfl⟩ := List.mem_map.mp hq
      exact ⟨normCdf_nonneg _, normCdf_le_one _⟩
  · intro noise m X s g l hc hd h
    rw [BayesianRegression.predict_cover_probability,
      BayesianRegression.predict] at h
    by_cases hf : m.is_fitted = false
    · rw [if_pos hf] at h
      exact absurd h (by simp [Bind.bind, Except.bind])
    · rw [if_neg hf] at h
      simp only [if_true, Bind.bind, Except.bind, Except.ok.injEq] at h
      subst h
      have hch : (sample_posterior_predictive noise m).chains = m.chains := rfl
      have hdr : (sample_posterior_predictive noise m).draws = m.draws := rfl
      have hn : (sample_posterior_predictive noise m).n = m.trainX.length := rfl
      rw [hch, hdr, hn]
      have key : ∀ i,
          (∑ a ∈ Finset.range m.chains, ∑ d ∈ Finset.range m.draws,
            if s < (sample_posterior_predictive noise m).val a d i then (1 : ℝ)
            else 0) =
          (((Finset.range m.chains ×ˢ Finset.range m.draws).filter
            (fun cd => s <
              (sample_posterior_predictive noise m).val cd.1 cd.2 i)).card :
            ℝ) := by
        intro i
        rw [← Finset.sum_product']
        exact Finset.sum_boole _ _
      have htot : (0 : ℝ) < (m.chains : ℝ) * (m.draws : ℝ) := by
        have h1 : 0 < m.chains := Nat.pos_of_ne_zero hc
        have h2 : 0 < m.draws := Nat.pos_of_ne_zero hd
        positivity
      constructor
      · intro q hq
        obtain ⟨i, _, rfl⟩ := List.mem_map.mp hq
        constructor
        · apply div_nonneg _ (le_of_lt htot)
          refine Finset.sum_nonneg (fun a _ => Finset.sum_nonneg (fun d _ => ?_))
          split <;> norm_num
        · rw [div_le_one htot, key i]
          have hcard : (((Finset.range m.chains ×ˢ Finset.range m.draws).filter
              (fun cd => s <
                (sample_posterior_predictive noise m).val cd.1 cd.2 i)).card) ≤
              m.chains * m.draws := by
            calc _ ≤ (Finset.range m.chains ×ˢ Finset.range m.draws).card :=
                  Finset.card_filter_le _ _
              _ = m.chains * m.draws := by
                  rw [Finset.card_product, Finset.card_range, Finset.card_range]
          calc (_ : ℝ) ≤ ((m.chains * m.draws : ℕ) : ℝ) := Nat.cast_le.mpr hcard
            _ = (m.chains : ℝ) * (m.draws : ℝ) := by push_cast; ring
      · refine List.map_congr_left (fun i _ => ?_)
        rw [key i]

/-- Witness for C8: a fitted point model and a fitted Bayesian model,
both evaluated at spread 0. -/
theorem c8_witness :
    (pointPlain.predict_cover_probability frameF2 0 none =
        Except.ok [normCdf (2 / 10)] ∧
      ∀ q ∈ [normCdf (2 / 10)], 0 ≤ q ∧ q ≤ 1) ∧
    (bayes3.chains ≠ 0 ∧ bayes3.draws ≠ 0 ∧
      BayesianRegression.predict_cover_probability (fun _ _ _ => 0) bayes3
        frameTwoRows 0 none = Except.ok [0, 0, 0] ∧
      ((∀ q ∈ [(0 : ℝ), 0, 0], 0 ≤ q ∧ q ≤ 1) ∧
        [(0 : ℝ), 0, 0] = (List.range bayes3.trainX.length).map (fun i =>
          (((Finset.range bayes3.chains ×ˢ Finset.range bayes3.draws).filter
              (fun cd => (0 : ℝ) <
                (sample_posterior_predictive (fun _ _ _ => 0) bayes3).val
                  cd.1 cd.2 i)).card : ℝ) /
            ((bayes3.chains : ℝ) * (bayes3.draws : ℝ))))) := by
  have h1 : pointPlain.predict_cover_probability frameF2 0 none =
      Except.ok [normCdf (2 / 10)] := by
    simp [LinearRegression.predict_cover_probability, LinearRegression.predict,
      SKLinReg.predictArr, pointPlain, frameF2, dot, Bind.bind, Except.bind]
  have h2 : BayesianRegression.predict_cover_probability (fun _ _ _ => 0)
      bayes3 frameTwoRows 0 none = Except.ok [0, 0, 0] := by
    simp [BayesianRegression.predict_cover_probability,
      BayesianRegression.predict, sample_posterior_predictive, bayes3, dot,
      Bind.bind, Except.bind, List.range_succ]
  exact ⟨⟨h1, c8_cover_probabilities_in_unit_interval.1 pointPlain frameF2 0
      none _ h1⟩,
    by decide, by decide, h2,
    c8_cover_probabilities_in_unit_interval.2 (fun _ _ _ => 0) bayes3
      frameTwoRows 0 none _ (by decide) (by decide) h2⟩

/-- A fitted two-feature point model without normalization, fit on
columns `a`, `b`. -/
def pointMismatch : LinearRegression where
  model := { coef := [1, 1], intercept := 0, n_features_in := 2 }
  scaler := none
  normalize := false
  feature_names := ["a", "b"]
  is_fitted := true

/-- A one-row frame whose columns `c`, `d` differ from the fit-time
columns `a`, `b` but have the same count. -/
def frameCD : Frame := { cols := ["c", "d"], rows := [[1, 2]] }

/-- C5 (counterexample): with `normalize=False`, `predict` on a frame
whose column set differs from the fit-time feature names — but has the
same column count — silently succeeds, computing on the positionally
aligned values instead of failing. -/
theorem c5_counterexample :
    frameCD.cols ≠ pointMismatch.feature_names ∧
    pointMismatch.normalize = false ∧
    pointMismatch.predict frameCD = Except.ok [3] := by
  refine ⟨by decide, rfl, ?_⟩
  simp [LinearRegression.predict, SKLinReg.predictArr, pointMismatch, frameCD,
    dot, Bind.bind, Except.bind]
  norm_num

/-- C5 (amended): with `normalize=True`, a predict-time column mismatch
fails inside the scaler's feature-name check; with `normalize=False`,
predict fails only when the column count differs from fit time, and a
mismatched column set with a matching count is silently accepted,
evaluated positionally. -/
theorem c5_amended_column_mismatch (m : LinearRegression) (s : Scaler)
    (X : Frame) (hf : m.is_fitted = true) :
    (m.normalize = true → m.scaler = some s →
      X.cols ≠ s.feature_names_in →
      m.predict X = Except.error
        ("The feature names should match those that were passed during fit")) ∧
    (m.normalize = false →
      X.rows.all (fun r => r.length = m.model.n_features_in) = true →
      m.predict X =
        Except.ok (X.rows.map (fun r => m.model.intercept + dot m.model.coef r))) ∧
    (m.normalize = false →
      X.rows.all (fun r => r.length = m.model.n_features_in) = false →
      m.predict X = Except.error ("X has a wrong number of features")) := by
  refine ⟨?_, ?_, ?_⟩
  · intro hn hs hc
    simp [LinearRegression.predict, Scaler.transform, hf, hn, hs, hc,
      Bind.bind, Except.bind]
  · intro hn hall
    simp [LinearRegression.predict, SKLinReg.predictArr, hf, hn, hall,
      Bind.bind, Except.bind]
  · intro hn hall
    simp [LinearRegression.predict, SKLinReg.predictArr, hf, hn, hall,
      Bind.bind, Except.bind]

/-- The standardization parameters a fit on the single column `f` with
values 0, 2 would store. -/
def scalerF : Scaler where
  feature_names_in := ["f"]
  mean := [1]
  scale := [1]

/-- A fitted normalizing point model over the single feature `f`:
coefficient 1, intercept 1, scaler mean 1 and scale 1. -/
def pointNorm : LinearRegression where
  model := { coef := [1], intercept := 1, n_features_in := 1 }
  scaler := some scalerF
  normalize := true
  feature_names := ["f"]
  is_fitted := true

/-- A one-row frame over `f` with the right name but — relative to
`pointPlain` — used to show the silent positional path. -/
def frameG : Frame := { cols := ["g"], rows := [[2]] }

/-- Witness for C5's amended statement: the normalizing model rejects a
renamed column; the non-normalizing model silently accepts one. -/
theorem c5_witness :
    (pointNorm.is_fitted = true ∧ pointNorm.normalize = true ∧
      pointNorm.scaler = some scalerF ∧
      frameCD.cols ≠ scalerF.feature_names_in ∧
      pointNorm.predict frameCD = Except.error
        ("The feature names should match those that were passed during fit")) ∧
    (pointPlain.is_fitted = true ∧ pointPlain.normalize = false ∧
      frameG.cols ≠ pointPlain.feature_names ∧
      frameG.rows.all (fun r => r.length = pointPlain.model.n_features_in) =
        true ∧
      pointPlain.predict frameG = Except.ok (frameG.rows.map
        (fun r => pointPlain.model.intercept + dot pointPlain.model.coef r))) :=
  ⟨⟨rfl, rfl, rfl, by decide,
      (c5_amended_column_mismatch pointNorm scalerF frameCD rfl).1 rfl rfl
        (by decide)⟩,
    ⟨rfl, rfl, by decide, by decide,
      (c5_amended_column_mismatch pointPlain scalerF frameG rfl).2.1 rfl
        (by decide)⟩⟩

/-- A one-row frame over `f` with value 4, predicted on before and after
`cross_validate`. -/
def frameX0 : Frame := { cols := ["f"], rows := [[4]] }

/-- A two-row frame over `f` with values 0 and 4 (mean 2, standard
deviation 2), passed to `cross_validate`. -/
def frameX1 : Frame := { cols := ["f"], rows := [[0], [4]] }

/-- C10: `cross_validate` with `normalize=True` re-fits the stored
scaler on its `X` argument (and leaves the state untouched otherwise);
consequently a fitted model returns different predictions on the same
frame after a `cross_validate` call on different data. -/
theorem c10_cross_validate_refits_scaler :
    (∀ (cvs : List (List ℝ) → List ℝ → ℕ → List ℝ) (m : LinearRegression)
        (X : Frame) (y : List ℝ) (cv : ℕ),
        (m.cross_validate cvs X y cv).2 =
          (if m.normalize then { m with scaler := some (scalerFit X) }
            else m)) ∧
    (pointNorm.predict frameX0 = Except.ok [4] ∧
      ((pointNorm.cross_validate (fun _ _ _ => []) frameX1 [0, 4] 5).2).predict
        frameX0 = Except.ok [2] ∧
      (4 : ℝ) ≠ 2) := by
  have hvar : npVar (frameX1.col 0) = 4 := by
    norm_num [npVar, npMean, frameX1, Frame.col]
  have hstd : npStd (frameX1.col 0) = 2 := by
    rw [npStd, hvar, show (4 : ℝ) = 2 ^ 2 by norm_num,
      Real.sqrt_sq (by norm_num)]
  have hM : (scalerFit frameX1).mean = [2] := by
    norm_num [scalerFit, frameX1, Frame.col, npMean, List.range_succ]
  have hS : (scalerFit frameX1).scale = [2] := by
    simp only [scalerFit]
    norm_num [show frameX1.cols.length = 1 from rfl, List.range_succ, hstd]
  have hN : (scalerFit frameX1).feature_names_in = ["f"] := rfl
  refine ⟨fun cvs m X y cv => rfl, ?_, ?_, by norm_num⟩
  · simp [LinearRegression.predict, Scaler.transform, scaleRow,
      SKLinReg.predictArr, pointNorm, scalerF, frameX0, dot, Bind.bind,
      Except.bind]
  · simp [LinearRegression.cross_validate, LinearRegression.predict,
      Scaler.transform, scaleRow, SKLinReg.predictArr, pointNorm, frameX0,
      hN, hM, hS, dot, Bind.bind, Except.bind]
    norm_num

end BowlMania
